import Mathlib

/-!
Shallow embedding of the `bar` status-bar program (sources: `src/lib.rs`,
`src/sound.rs`, `src/wireless.rs`) and proofs about it.

Machine integers are modelled as `Nat`/`Int`; reductions `% 2 ^ w` appear
exactly where the Rust code can wrap.  Fallible Rust code returns
`Except`.  A Rust panic (index out of bounds, `expect` on a parse
failure, division by zero, slicing a `str` off a character boundary) is
modelled as the `Failure.panic` alternative, kept distinct from an
ordinary `Err` return (`Failure.err`).
-/

/-- Kinds of Rust panics reachable in the embedded code. -/
inductive Panic
  | parseFailure
  | indexOutOfBounds
  | divByZero
  | notCharBoundary
  | sliceOutOfRange
  deriving DecidableEq, Repr

instance : BEq Panic := instBEqOfDecidableEq

/-- Outcome of a fallible computation: an ordinary `Err` return carrying a
message, or a process-aborting panic. -/
inductive Failure
  | err (msg : String)
  | panic (p : Panic)
  deriving DecidableEq, Repr

instance : BEq Failure := instBEqOfDecidableEq

/-- Digit-string to `Nat`; `none` when empty or a character is not an ASCII
digit (mirrors the digit phase of Rust integer parsing). -/
def digitsToNat (cs : List Char) : Option Nat :=
  if cs.isEmpty then none
  else if cs.all (fun c => c.isDigit) then
    some (cs.foldl (fun a c => 10 * a + (c.toNat - 48)) 0)
  else none

/-- `str::parse::<i32>`: optional sign, one or more ASCII digits, value within
the `i32` range; `none` models `Err(ParseIntError)`. -/
def parseI32 (s : String) : Option Int :=
  let cs := s.data
  let signDigits : Int × List Char :=
    match cs with
    | '+' :: rest => (1, rest)
    | '-' :: rest => (-1, rest)
    | _ => (1, cs)
  match digitsToNat signDigits.2 with
  | none => none
  | some n =>
    let v : Int := signDigits.1 * (n : Int)
    if -(2 ^ 31) ≤ v ∧ v ≤ 2 ^ 31 - 1 then some v else none

/-- Helper for `splitWhitespace`: accumulates the current word (reversed). -/
def splitWsAux : List Char → List Char → List String
  | [], acc => if acc.isEmpty then [] else [String.mk acc.reverse]
  | c :: cs, acc =>
    if c.isWhitespace then
      if acc.isEmpty then splitWsAux cs []
      else String.mk acc.reverse :: splitWsAux cs []
    else splitWsAux cs (c :: acc)

/-- `str::split_whitespace` (collected): maximal non-whitespace runs. -/
def splitWhitespace (s : String) : List String :=
  splitWsAux s.data []

/-- Left-pad with spaces to the given width (Rust integer formatting is
right-aligned, space-padded). -/
def padLeft (width : Nat) (s : String) : String :=
  if s.length < width then String.mk (List.replicate (width - s.length) ' ') ++ s
  else s

/-- Rust `format!` of a nonnegative integer with a minimum width, as in the
width-3 volume and signal-strength fields. -/
def fmtWidth (width : Nat) (n : Nat) : String :=
  padLeft width (toString n)

/-- Number of bytes of a character in UTF-8 (Rust `str` byte positions). -/
def utf8Len (c : Char) : Nat :=
  if c.val < 0x80 then 1
  else if c.val < 0x800 then 2
  else if c.val < 0x10000 then 3
  else 4

/-- Rust `&s[..n]` on a UTF-8 string, as the list of leading characters whose
encodings fill exactly `n` bytes; panics when `n` is not a character boundary
or exceeds the byte length. -/
def takeBytes : List Char → Nat → Except Panic (List Char)
  | _, 0 => .ok []
  | [], _ + 1 => .error .sliceOutOfRange
  | c :: cs, n + 1 =>
    if utf8Len c ≤ n + 1 then
      match takeBytes cs (n + 1 - utf8Len c) with
      | .ok l => .ok (c :: l)
      | .error p => .error p
    else .error .notCharBoundary

/-- Rust `val[..n].to_owned()` for a string slice by byte index. -/
def sliceToByte (val : String) (n : Nat) : Except Panic String :=
  match takeBytes val.data n with
  | .ok l => .ok (String.mk l)
  | .error p => .error p

/-- Rust `x as u64` on an `i32` value: two's-complement reinterpretation. -/
def i32_as_u64 (x : Int) : Nat :=
  (x % (2 : Int) ^ 64).toNat

/-- Rust `u32::try_from` on a `u64` value. -/
def u32_try_from (n : Nat) : Option Nat :=
  if n < 2 ^ 32 then some n else none

/-- `f32::round` of `num / den` (`den > 0`), rounding half away from zero;
exact rational arithmetic stands in for the source's `f32` steps, which are
exact at the magnitudes a thermal sensor produces. -/
def roundHalfAway (num den : Int) : Int :=
  if 0 ≤ num then Int.tdiv (2 * num + den) (2 * den)
  else -(Int.tdiv (2 * (-num) + den) (2 * den))

/-- Boolean success test on an `Except Failure` result. -/
def resultOk : Except Failure Unit → Bool
  | .ok _ => true
  | .error _ => false

/-! ### `src/lib.rs`: the `Bar` struct and its samplers -/

def DEFAULT_FONT : String := "+@fn=0;"

def ICON_FONT : String := "+@fn=1;"

def DEFAULT_COLOR : String := "+@fg=0;"

def RED : String := "+@fg=1;"

def GREEN : String := "+@fg=2;"

/-- The `Bar` struct of `src/lib.rs`. -/
structure Bar where
  default_font : String
  icon : String
  default_color : String
  red : String
  green : String
  prev_idle : Int
  prev_total : Int
  deriving DecidableEq, Repr

/-- `Bar::new`. -/
def Bar.new : Bar :=
  { default_font := DEFAULT_FONT
    icon := ICON_FONT
    default_color := DEFAULT_COLOR
    red := RED
    green := GREEN
    prev_idle := 0
    prev_total := 0 }

/-- `get_battery_icon` of `src/lib.rs`. -/
def get_battery_icon (state : String) (level : Nat) : String :=
  if state = "Full" then "󰁹"
  else if state = "Discharging" then
    if level ≤ 9 then "󰂎"
    else if level ≤ 19 then "󰁺"
    else if level ≤ 29 then "󰁻"
    else if level ≤ 39 then "󰁼"
    else if level ≤ 49 then "󰁽"
    else if level ≤ 59 then "󰁾"
    else if level ≤ 69 then "󰁿"
    else if level ≤ 79 then "󰂀"
    else if level ≤ 89 then "󰂁"
    else if level ≤ 99 then "󰂂"
    else if level = 100 then "󰁹"
    else "󱃍"
  else if state = "Charging" then
    if level ≤ 9 then "󰢟"
    else if level ≤ 19 then "󰢜"
    else if level ≤ 29 then "󰂆"
    else if level ≤ 39 then "󰂇"
    else if level ≤ 49 then "󰂈"
    else if level ≤ 59 then "󰢝"
    else if level ≤ 69 then "󰂉"
    else if level ≤ 79 then "󰢞"
    else if level ≤ 89 then "󰂊"
    else if level ≤ 99 then "󰂋"
    else if level = 100 then "󰂅"
    else "󱃍"
  else "󱃍"

/-- `read_and_trim`: the file's content (an I/O result, supplied as input) is
trimmed; an I/O error becomes an `Err` message. -/
def read_and_trim (file : Except String String) : Except String String :=
  match file with
  | .error e => .error e
  | .ok content => .ok content.trim

/-- `read_and_parse`: trim then parse as `i32`; a parse failure is an `Err`. -/
def read_and_parse (file : Except String String) : Except String Int :=
  match read_and_trim file with
  | .error e => .error e
  | .ok content =>
    match parseI32 content with
    | some data => .ok data
    | none => .error "parse error"

/-- `Bar::battery`.  Inputs are the contents of the three battery files; each
`match` mirrors one `?`.  `capacity = 0` makes the `u64` division panic. -/
def Bar.battery (bar : Bar) (energy_full_design_file energy_now_file power_status_file :
    Except String String) : Except Failure (String × Bar) :=
  match read_and_parse energy_full_design_file with
  | .error e => .error (.err e)
  | .ok energy_full_design =>
    match read_and_parse energy_now_file with
    | .error e => .error (.err e)
    | .ok energy_now =>
      match read_and_trim power_status_file with
      | .error e => .error (.err e)
      | .ok status =>
        let capacity := i32_as_u64 energy_full_design
        let energy := i32_as_u64 energy_now
        if capacity = 0 then .error (.panic .divByZero)
        else
          match u32_try_from (100 * energy % 2 ^ 64 / capacity) with
          | none => .error (.err "try_from error")
          | some battery_level =>
            let color := if battery_level ≤ 10 then bar.red else bar.default_color
            let color := if status = "Full" then bar.green else color
            .ok (color ++ bar.icon ++ get_battery_icon status battery_level
                ++ bar.default_font ++ bar.default_color ++ " "
                ++ toString battery_level ++ "%", bar)

/-- `Bar::cpu`, given the first line of `/proc/stat`.  Parse failures hit the
`expect` (panic); fewer than five numeric fields make `times[3]`/`times[4]`
panic; `diff_total = 0` makes the division panic.  Returns the printed usage,
the `Ok` string and the updated state. -/
def Bar.cpu (bar : Bar) (firstLine : String) : Except Panic (Int × String × Bar) :=
  let fields := splitWhitespace firstLine
  let rest := fields.drop 1
  match rest.mapM parseI32 with
  | none => .error .parseFailure
  | some times =>
    match times[3]?, times[4]? with
    | some t3, some t4 =>
      let idle := t3 + t4
      let total := times.foldl (fun acc i => acc + i) 0
      let diff_idle := idle - bar.prev_idle
      let diff_total := total - bar.prev_total
      if diff_total = 0 then .error .divByZero
      else
        let usage := Int.tdiv (Int.tdiv (1000 * (diff_total - diff_idle)) diff_total) 10
        .ok (usage, "eheh", { bar with prev_idle := idle, prev_total := total })
    | _, _ => .error .indexOutOfBounds

/-- `Bar::cpu` including the `File::open`/`read_line` I/O results (which are
`Err` returns, not panics). -/
def Bar.cpuRead (bar : Bar) (firstLine : Except String String) :
    Except Failure (Int × String × Bar) :=
  match firstLine with
  | .error e => .error (.err e)
  | .ok l =>
    match Bar.cpu bar l with
    | .error p => .error (.panic p)
    | .ok r => .ok r

/-- `Bar::core_temperature`, given the four `tempN_input` file contents.
The `f32` average is modelled by exact rational rounding (`roundHalfAway`). -/
def Bar.core_temperature (bar : Bar) (temp2_file temp3_file temp4_file temp5_file :
    Except String String) : Except Failure (String × Bar) :=
  match read_and_parse temp2_file with
  | .error e => .error (.err e)
  | .ok core_1 =>
    match read_and_parse temp3_file with
    | .error e => .error (.err e)
    | .ok core_2 =>
      match read_and_parse temp4_file with
      | .error e => .error (.err e)
      | .ok core_3 =>
        match read_and_parse temp5_file with
        | .error e => .error (.err e)
        | .ok core_4 =>
          let average := roundHalfAway (core_1 + core_2 + core_3 + core_4) 4000
          let icon :=
            if 0 ≤ average ∧ average ≤ 50 then "󱃃"
            else if 51 ≤ average ∧ average ≤ 70 then "󰔏"
            else if 71 ≤ average ∧ average ≤ 100 then "󱃂"
            else "󰸁"
          let color := if 75 < average then bar.red else bar.default_color
          .ok (color ++ bar.icon ++ icon ++ bar.default_font ++ bar.default_color
              ++ " " ++ toString average ++ "°", bar)

/-- `Bar::brightness`, given the two backlight file contents.  A zero
`max_brightness` makes the `i32` division panic. -/
def Bar.brightness (bar : Bar) (actual_brightness_file max_brightness_file :
    Except String String) : Except Failure (String × Bar) :=
  match read_and_parse actual_brightness_file with
  | .error e => .error (.err e)
  | .ok brightness =>
    match read_and_parse max_brightness_file with
    | .error e => .error (.err e)
    | .ok max_brightness =>
      if max_brightness = 0 then .error (.panic .divByZero)
      else
        let percentage := Int.tdiv (100 * brightness) max_brightness
        .ok (bar.icon ++ "󰃟" ++ bar.default_font ++ " " ++ toString percentage ++ "%", bar)

/-- The four samplers `Bar::update` calls, in source order. -/
inductive SamplerName
  | battery
  | brightness
  | cpu
  | coreTemperature
  deriving DecidableEq, Repr

instance : BEq SamplerName := instBEqOfDecidableEq

/-- External inputs consumed by one `Bar::update` call: the contents of every
file the samplers read (each as an I/O result) and the formatted date. -/
structure UpdateInputs where
  energy_full_design_file : Except String String
  energy_now_file : Except String String
  power_status_file : Except String String
  actual_brightness_file : Except String String
  max_brightness_file : Except String String
  proc_stat_line : Except String String
  temp2_file : Except String String
  temp3_file : Except String String
  temp4_file : Except String String
  temp5_file : Except String String
  date_time : String

/-- Observable outcome of one `Bar::update` call: the returned result, the
samplers that actually ran (in order), the printed line if any, and the final
`Bar` state. -/
structure UpdateResult where
  result : Except Failure Unit
  ran : List SamplerName
  printed : Option String
  bar : Bar

/-- `Bar::update`: `battery?`, `brightness?`, `cpu?`, `core_temperature?`,
then `println!` of temperature, brightness, battery and date (the `cpu`
string is bound but unused in the printed line). -/
def Bar.update (bar : Bar) (inp : UpdateInputs) : UpdateResult :=
  let date_time := inp.date_time
  match bar.battery inp.energy_full_design_file inp.energy_now_file inp.power_status_file with
  | .error f => ⟨.error f, [.battery], none, bar⟩
  | .ok (battery, bar1) =>
    match bar1.brightness inp.actual_brightness_file inp.max_brightness_file with
    | .error f => ⟨.error f, [.battery, .brightness], none, bar1⟩
    | .ok (brightness, bar2) =>
      match Bar.cpuRead bar2 inp.proc_stat_line with
      | .error f => ⟨.error f, [.battery, .brightness, .cpu], none, bar2⟩
      | .ok (_usage, _cpu, bar3) =>
        match bar3.core_temperature inp.temp2_file inp.temp3_file inp.temp4_file inp.temp5_file with
        | .error f => ⟨.error f, [.battery, .brightness, .cpu, .coreTemperature], none, bar3⟩
        | .ok (temperature, bar4) =>
          ⟨.ok (), [.battery, .brightness, .cpu, .coreTemperature],
            some (temperature ++ "  " ++ brightness ++ "  " ++ battery ++ "   " ++ date_time),
            bar4⟩

/-- A concrete `Bar::update` input whose battery energy file fails to read
while every other input is well-formed. -/
def batteryFailInput : UpdateInputs :=
  { energy_full_design_file := .error "io error"
    energy_now_file := .ok "2500000"
    power_status_file := .ok "Discharging"
    actual_brightness_file := .ok "50"
    max_brightness_file := .ok "100"
    proc_stat_line := .ok "cpu 10 20 30 40 50"
    temp2_file := .ok "40000"
    temp3_file := .ok "40000"
    temp4_file := .ok "40000"
    temp5_file := .ok "40000"
    date_time := "Mon. 1 January 2026, 10h00" }

/-! ### Message protocol (`ModuleMsg` of the crate root)

`ModuleMsg` is declared in the crate root, which is not among the sources;
its shape is therefore taken from the two construction sites that are:
`sound::run` builds `ModuleMsg(key, Some(value), Some(label))` and
`wireless::run` builds `ModuleMsg(key, value)`.  Each call shape is one
constructor of the payload. -/

/-- The two message payload shapes observed at the `ModuleMsg` construction
sites in `src/sound.rs` and `src/wireless.rs`. -/
inductive MsgPayload
  | optFields (value : Option String) (label : Option String)
  | plainValue (value : String)
  deriving DecidableEq, Repr

instance : BEq MsgPayload := instBEqOfDecidableEq

/-- A message sent on the module channel: the module key plus the payload of
the construction site. -/
structure ModuleMsg where
  key : Char
  payload : MsgPayload
  deriving DecidableEq, Repr

instance : BEq ModuleMsg := instBEqOfDecidableEq

/-- Modelled from the spec: a `ModuleMsg` has the shape of a key together
with an `Option`-typed value string and an `Option`-typed label string; a
payload with a bare value and no label field does not have that shape. -/
def specMsgShape (m : ModuleMsg) : Bool :=
  match m.payload with
  | .optFields _ _ => true
  | .plainValue _ => false

/-! ### `src/sound.rs` -/

namespace sound

def PLACEHOLDER : String := "-"

def TICK_RATE : Nat := 50

def MUTE_LABEL : String := ".so"

def LABEL : String := "sou"

def FORMAT : String := "%l:%v"

/-- `sound::Config` (the `[sound]` section of the main configuration). -/
structure Config where
  index : Option Nat
  tick : Option Nat
  placeholder : Option String
  label : Option String
  mute_label : Option String
  format : Option String
  deriving DecidableEq, Repr

end sound

namespace wireless

def PLACEHOLDER : String := "-"

def TICK_RATE : Nat := 500

def MAX_ESSID_LEN : Nat := 10

def INTERFACE : String := "wlan0"

def TEXT : String := "wle"

def DISCONNECTED_TEXT : String := ".wl"

/-- `wireless::Display`. -/
inductive Display
  | Essid
  | Signal
  | TextOnly
  deriving DecidableEq, Repr

instance : BEq Display := instBEqOfDecidableEq

def DISPLAY : Display := Display.Signal

/-- `wireless::Config` (the `[wireless]` section of the main configuration). -/
structure Config where
  tick : Option Nat
  display : Option Display
  max_essid_len : Option Nat
  interface : Option String
  placeholder : Option String
  text : Option String
  disconnected_text : Option String
  deriving DecidableEq, Repr

end wireless

/-- Modelled from the spec: the crate-root `Config` (not among the sources)
as far as these two modules read it — an optional `sound` section and an
optional `wireless` section. -/
structure MainConfig where
  sound : Option sound.Config
  wireless : Option wireless.Config
  deriving DecidableEq, Repr

namespace sound

/-- `sound::InternalConfig` (tick in milliseconds). -/
structure InternalConfig where
  tick : Nat
  label : String
  mute_label : String
  deriving DecidableEq, Repr

/-- `InternalConfig::from(&MainConfig)`: defaults, each overridden by its own
option when the `sound` section sets it. -/
def InternalConfig.ofMainConfig (config : MainConfig) : InternalConfig :=
  let tick := TICK_RATE
  let label := LABEL
  let mute_label := MUTE_LABEL
  match config.sound with
  | some c =>
    { tick := match c.tick with | some t => t | none => tick
      label := match c.label with | some v => v | none => label
      mute_label := match c.mute_label with | some v => v | none => mute_label }
  | none => { tick := tick, label := label, mute_label := mute_label }

/-- The `Sound` struct fields set by `Sound::with_config` (the back-reference
to the borrowed main configuration is omitted). -/
structure Sound where
  placeholder : String
  format : String
  deriving DecidableEq, Repr

/-- `Sound::with_config`. -/
def Sound.with_config (config : MainConfig) : Sound :=
  let placeholder := PLACEHOLDER
  let format := FORMAT
  match config.sound with
  | some c =>
    { placeholder := match c.placeholder with | some p => p | none => placeholder
      format := match c.format with | some v => v | none => format }
  | none => { placeholder := placeholder, format := format }

/-- Observable events of one iteration of the `sound::run` loop, in program
order: taking and dropping the shared `Mutex<Pulse>` lock, the `sink_data`
query with its result, a channel send, the tick sleep. -/
inductive Event
  | lockAcquire
  | sinkDataQuery (result : Option (Nat × Bool))
  | send (msg : ModuleMsg)
  | lockRelease
  | sleep (ms : Nat)
  deriving DecidableEq, Repr

instance : BEq Event := instBEqOfDecidableEq

/-- One iteration of the `sound::run` loop.  `sink_data` is the result of
`Pulse::sink_data` for this cycle (`data.1` the volume, `data.2` the muted
flag) and `send_ok` tells whether `tx.send` succeeds.  Returns the event
trace of the iteration and `some` failure when the iteration makes `run`
return.  The lock guard is a temporary of the `if let` scrutinee, so it is
dropped at the end of the `if let` — after the send, before the sleep. -/
def runIter (config : InternalConfig) (key : Char) (sink_data : Option (Nat × Bool))
    (send_ok : Bool) : List Event × Option Failure :=
  match sink_data with
  | none => ([.lockAcquire, .sinkDataQuery none, .lockRelease, .sleep config.tick], none)
  | some data =>
    let label := if data.2 then config.mute_label else config.label
    let msg : ModuleMsg := ⟨key, .optFields (some (fmtWidth 3 data.1 ++ "%")) (some label)⟩
    if send_ok then
      ([.lockAcquire, .sinkDataQuery (some data), .send msg, .lockRelease,
        .sleep config.tick], none)
    else
      ([.lockAcquire, .sinkDataQuery (some data), .send msg, .lockRelease],
        some (.err "sending on a closed channel"))

/-- Messages sent during a trace. -/
def sentMsgs (evs : List Event) : List ModuleMsg :=
  evs.filterMap fun e =>
    match e with
    | .send m => some m
    | _ => none

/-- Outcome of `sound::run` after `n` iterations, the per-cycle `sink_data`
results and send outcomes being given as streams: `none` while the loop is
still running, `some r` once the function has returned `r`. -/
def runSteps (config : InternalConfig) (key : Char) (sink : Nat → Option (Nat × Bool))
    (send_ok : Nat → Bool) : Nat → Option (Except Failure Unit)
  | 0 => none
  | n + 1 =>
    match runSteps config key sink send_ok n with
    | some r => some r
    | none =>
      match (runIter config key (sink n) (send_ok n)).2 with
      | some f => some (.error f)
      | none => none

/-- The effective configuration when the main configuration has no `sound`
section. -/
def defaultInternalConfig : InternalConfig :=
  InternalConfig.ofMainConfig ⟨none, none⟩

end sound

/-! ### `src/wireless.rs` -/

namespace wireless

/-- Modelled from the spec: the payload of `nl_data::WirelessState::Connected`
(`nl_data` is not among the sources) as the two fields `wireless::run`
reads — an optional ESSID and an optional signal strength. -/
structure WirelessData where
  essid : Option String
  signal : Option Nat
  deriving DecidableEq, Repr

/-- Modelled from the spec: `nl_data::WirelessState`; `wireless::run` only
distinguishes `Connected` from every other state, so the others collapse
into a single disconnected alternative. -/
inductive WirelessState
  | Connected (data : WirelessData)
  | Disconnected
  deriving DecidableEq, Repr

/-- `wireless::InternalConfig` (tick in milliseconds). -/
structure InternalConfig where
  display : Display
  max_essid_len : Nat
  interface : String
  tick : Nat
  text : String
  disconnected_text : String
  deriving DecidableEq, Repr

/-- `InternalConfig::from(&MainConfig)`: defaults, each overridden by its own
option when the `wireless` section sets it. -/
def InternalConfig.ofMainConfig (config : MainConfig) : InternalConfig :=
  let tick := TICK_RATE
  let display := DISPLAY
  let max_essid_len := MAX_ESSID_LEN
  let interface := INTERFACE
  let text := TEXT
  let disconnected_text := DISCONNECTED_TEXT
  match config.wireless with
  | some c =>
    { display := match c.display with | some d => d | none => display
      max_essid_len := match c.max_essid_len with | some m => m | none => max_essid_len
      interface := match c.interface with | some i => i | none => interface
      tick := match c.tick with | some t => t | none => tick
      text := match c.text with | some v => v | none => text
      disconnected_text :=
        match c.disconnected_text with | some v => v | none => disconnected_text }
  | none =>
    { display := display, max_essid_len := max_essid_len, interface := interface
      tick := tick, text := text, disconnected_text := disconnected_text }

/-- The `Wireless` struct fields set by `Wireless::with_config` (the
back-reference to the borrowed main configuration is omitted). -/
structure Wireless where
  placeholder : String
  deriving DecidableEq, Repr

/-- `Wireless::with_config`. -/
def Wireless.with_config (config : MainConfig) : Wireless :=
  let placeholder := PLACEHOLDER
  match config.wireless with
  | some c =>
    { placeholder := match c.placeholder with | some p => p | none => placeholder }
  | none => { placeholder := placeholder }

/-- The ESSID assignment of `wireless::run`: when the character count exceeds
`max_essid_len`, the byte slice `val[..max_essid_len]` (which panics off a
character boundary), otherwise `val` itself. -/
def truncateEssid (max_essid_len : Nat) (val : String) : Except Panic String :=
  if val.data.length > max_essid_len then sliceToByte val max_essid_len
  else .ok val

/-- The sampling half of one `wireless::run` iteration: from the queried
state to `(text, essid, signal)` as the loop body computes them before the
`display` match.  A panic in the ESSID truncation aborts the iteration. -/
def sample (config : InternalConfig) (state : WirelessState) :
    Except Panic (String × String × Option Nat) :=
  match state with
  | .Connected data =>
    let text := config.text
    let signal := data.signal
    match data.essid with
    | some val =>
      match truncateEssid config.max_essid_len val with
      | .ok essid => .ok (text, essid, signal)
      | .error p => .error p
    | none => .ok (text, "", signal)
  | .Disconnected => .ok (config.disconnected_text, "", none)

/-- Observable events of one iteration of the `wireless::run` loop. -/
inductive Event
  | wirelessDataQuery (state : WirelessState)
  | send (msg : ModuleMsg)
  | sleep (ms : Nat)
  deriving DecidableEq, Repr

instance : BEq Event := instBEqOfDecidableEq

/-- One iteration of the `wireless::run` loop: query the interface state,
compute `(text, essid, signal)`, build the message the `display` match sends,
send it, sleep for the tick.  A truncation panic aborts the process (no send,
no sleep); a failed send makes `run` return the error before the sleep. -/
def runIter (config : InternalConfig) (key : Char) (state : WirelessState)
    (send_ok : Bool) : List Event × Option Failure :=
  match sample config state with
  | .error p => ([.wirelessDataQuery state], some (.panic p))
  | .ok (text, essid, signal) =>
    let msg : ModuleMsg :=
      match config.display with
      | .TextOnly => ⟨key, .plainValue text⟩
      | .Essid => ⟨key, .plainValue (essid ++ text)⟩
      | .Signal =>
        match signal with
        | some s => ⟨key, .plainValue (fmtWidth 3 s ++ "%" ++ text)⟩
        | none => ⟨key, .plainValue ("    " ++ text)⟩
    if send_ok then ([.wirelessDataQuery state, .send msg, .sleep config.tick], none)
    else ([.wirelessDataQuery state, .send msg], some (.err "sending on a closed channel"))

/-- Messages sent during a trace. -/
def sentMsgs (evs : List Event) : List ModuleMsg :=
  evs.filterMap fun e =>
    match e with
    | .send m => some m
    | _ => none

/-- Outcome of `wireless::run` after `n` iterations: `none` while the loop is
still running, `some r` once the function has returned `r` (a truncation
panic is recorded as the `Failure.panic` alternative). -/
def runSteps (config : InternalConfig) (key : Char) (states : Nat → WirelessState)
    (send_ok : Nat → Bool) : Nat → Option (Except Failure Unit)
  | 0 => none
  | n + 1 =>
    match runSteps config key states send_ok n with
    | some r => some r
    | none =>
      match (runIter config key (states n) (send_ok n)).2 with
      | some f => some (.error f)
      | none => none

/-- The effective configuration when the main configuration has no `wireless`
section. -/
def defaultInternalConfig : InternalConfig :=
  InternalConfig.ofMainConfig ⟨none, none⟩

end wireless

deriving instance DecidableEq for Except

/-- Whether a (possibly still running) loop has returned `Ok(())`. -/
def returnedOk : Option (Except Failure Unit) → Bool
  | some (.ok _) => true
  | _ => false

/-- Event classifier: is this a `sink_data` query. -/
def sound.isQueryEv : sound.Event → Bool
  | .sinkDataQuery _ => true
  | _ => false

/-- Event classifier: is this a tick sleep. -/
def sound.isSleepEv : sound.Event → Bool
  | .sleep _ => true
  | _ => false

/-- Shape of every message built in `sound::run`: the given key, a `Some`
value and a `Some` label. -/
def soundShapeOk (key : Char) (m : ModuleMsg) : Bool :=
  m.key == key &&
    match m.payload with
    | .optFields (some _) (some _) => true
    | _ => false

/-- Shape of every message built in `wireless::run`: the given key and a
bare (non-`Option`) value with no label field. -/
def wirelessShapeOk (key : Char) (m : ModuleMsg) : Bool :=
  m.key == key &&
    match m.payload with
    | .plainValue _ => true
    | _ => false

/-! ### Theorems -/

/-- C9: `Bar::cpu` is partial rather than total in its error handling —
a first line with fewer than five numeric fields after the leading tag makes
the `times[3]`/`times[4]` indexing panic, a non-numeric field makes the
`expect` on the parse panic, and two consecutive reads with equal totals make
`diff_total` zero so the division panics; none of these is an `Err` return. -/
theorem C9_cpu_partial :
    Bar.cpu Bar.new "cpu 10 20 30" = .error .indexOutOfBounds
    ∧ Bar.cpu Bar.new "cpu 1 2 3 foo 5" = .error .parseFailure
    ∧ Bar.cpu { Bar.new with prev_total := 15 } "cpu 1 2 3 4 5" = .error .divByZero :=
  ⟨rfl, rfl, rfl⟩

/-- C1 is false on the code: with every input well-formed except the battery
energy file, `Bar::update` runs only the battery sampler, prints no line and
returns the battery error — so an error in one sampler does prevent the
remaining samplers from running and the line from being printed. -/
theorem C1_isolation_counterexample :
    (Bar.update Bar.new batteryFailInput).ran = [.battery]
    ∧ (Bar.update Bar.new batteryFailInput).printed = none
    ∧ (Bar.update Bar.new batteryFailInput).result = .error (.err "io error") :=
  ⟨rfl, rfl, rfl⟩

/-- C1 (amended): `Bar::update` aborts at the first failing sampler — the
line is printed exactly when the update returns `Ok`, the samplers that ran
always form a prefix of the fixed order battery, brightness, cpu,
core_temperature, and on success all four ran. -/
theorem C1_update_aborts_on_first_error (bar : Bar) (inp : UpdateInputs) :
    (Bar.update bar inp).printed.isSome = resultOk (Bar.update bar inp).result
    ∧ (Bar.update bar inp).ran.isPrefixOf
        [.battery, .brightness, .cpu, .coreTemperature] = true
    ∧ (resultOk (Bar.update bar inp).result
        && !((Bar.update bar inp).ran
              == [SamplerName.battery, .brightness, .cpu, .coreTemperature])) = false := by
  unfold Bar.update
  repeat' split
  all_goals exact ⟨rfl, rfl, rfl⟩

/-- C2 is false on the code: `wireless::run` under the default configuration,
disconnected, sends a message whose payload is a bare value string with no
`Option`-typed value and no label field — it does not have the spec's
three-field message shape. -/
theorem C2_shape_counterexample :
    wireless.sentMsgs (wireless.runIter wireless.defaultInternalConfig 'w'
        .Disconnected true).1
      = [⟨'w', .plainValue "    .wl"⟩]
    ∧ specMsgShape ⟨'w', .plainValue "    .wl"⟩ = false :=
  ⟨rfl, rfl⟩

/-- C6 is false on the code: a `sound::run` iteration in which `sink_data`
returns `None` sends no message at all, not exactly one. -/
theorem C6_one_message_counterexample :
    sound.sentMsgs (sound.runIter sound.defaultInternalConfig 's' none true).1 = []
    ∧ (sound.sentMsgs (sound.runIter sound.defaultInternalConfig 's' none true).1).length
        = 0 :=
  ⟨rfl, rfl⟩

/-- Helper: `Bar::battery` maps its state through unchanged. -/
theorem Bar.battery_map_frame (bar : Bar) (f1 f2 f3 : Except String String) :
    (bar.battery f1 f2 f3).map (fun r => r.2)
      = (bar.battery f1 f2 f3).map (fun _ => bar) := by
  unfold Bar.battery
  dsimp only
  repeat' split
  all_goals rfl

/-- Helper: `Bar::brightness` maps its state through unchanged. -/
theorem Bar.brightness_map_frame (bar : Bar) (f1 f2 : Except String String) :
    (bar.brightness f1 f2).map (fun r => r.2)
      = (bar.brightness f1 f2).map (fun _ => bar) := by
  unfold Bar.brightness
  dsimp only
  repeat' split
  all_goals rfl

/-- Helper: `Bar::core_temperature` maps its state through unchanged. -/
theorem Bar.core_temperature_map_frame (bar : Bar) (f1 f2 f3 f4 : Except String String) :
    (bar.core_temperature f1 f2 f3 f4).map (fun r => r.2)
      = (bar.core_temperature f1 f2 f3 f4).map (fun _ => bar) := by
  unfold Bar.core_temperature
  dsimp only
  repeat' split
  all_goals rfl

/-- Helper: `Bar::cpu` changes only `prev_idle` and `prev_total`. -/
theorem Bar.cpu_map_frame (bar : Bar) (line : String) :
    (Bar.cpu bar line).map
        (fun r => { r.2.2 with prev_idle := bar.prev_idle, prev_total := bar.prev_total })
      = (Bar.cpu bar line).map (fun _ => bar) := by
  unfold Bar.cpu
  dsimp only
  repeat' split
  all_goals rfl

/-- Helper: pointwise form of `Bar.battery_map_frame`. -/
theorem Bar.battery_state_eq (bar : Bar) (f1 f2 f3 : Except String String) (s : String)
    (b' : Bar) (h : bar.battery f1 f2 f3 = .ok (s, b')) : b' = bar := by
  have hm := Bar.battery_map_frame bar f1 f2 f3
  rw [h] at hm
  simpa [Except.map] using hm

/-- Helper: pointwise form of `Bar.brightness_map_frame`. -/
theorem Bar.brightness_state_eq (bar : Bar) (f1 f2 : Except String String) (s : String)
    (b' : Bar) (h : bar.brightness f1 f2 = .ok (s, b')) : b' = bar := by
  have hm := Bar.brightness_map_frame bar f1 f2
  rw [h] at hm
  simpa [Except.map] using hm

/-- Helper: pointwise form of `Bar.core_temperature_map_frame`. -/
theorem Bar.core_temperature_state_eq (bar : Bar) (f1 f2 f3 f4 : Except String String)
    (s : String) (b' : Bar) (h : bar.core_temperature f1 f2 f3 f4 = .ok (s, b')) :
    b' = bar := by
  have hm := Bar.core_temperature_map_frame bar f1 f2 f3 f4
  rw [h] at hm
  simpa [Except.map] using hm

/-- Helper: `Bar::cpu` behind the I/O read, same frame property. -/
theorem Bar.cpuRead_state_eq (bar : Bar) (line : Except String String) (u : Int)
    (s : String) (b' : Bar) (h : Bar.cpuRead bar line = .ok (u, s, b')) :
    { b' with prev_idle := bar.prev_idle, prev_total := bar.prev_total } = bar := by
  unfold Bar.cpuRead at h
  split at h
  · exact absurd h (by simp)
  · rename_i l
    split at h
    · exact absurd h (by simp)
    · rename_i r hr
      injection h with h2
      subst h2
      have hm := Bar.cpu_map_frame bar l
      rw [hr] at hm
      simpa [Except.map] using hm

/-- Helper: `Bar::update` leaves every field but `prev_idle`/`prev_total`
unchanged. -/
theorem Bar.update_state_frame (bar : Bar) (inp : UpdateInputs) :
    { (Bar.update bar inp).bar with prev_idle := bar.prev_idle, prev_total := bar.prev_total } = bar := by
  unfold Bar.update
  split
  · rfl
  · rename_i bat bar1 hb
    have e1 := Bar.battery_state_eq _ _ _ _ _ _ hb
    subst e1
    split
    · rfl
    · rename_i bri bar2 hbr
      have e2 := Bar.brightness_state_eq _ _ _ _ _ hbr
      subst e2
      split
      · rfl
      · rename_i u cp bar3 hc
        have e3 := Bar.cpuRead_state_eq _ _ _ _ _ hc
        split
        · exact e3
        · rename_i t bar4 ht
          have e4 := Bar.core_temperature_state_eq _ _ _ _ _ _ _ ht
          subst e4
          exact e3

/-- C10: `Bar::battery`, `Bar::brightness` and `Bar::core_temperature` leave
the `Bar` state unchanged; `Bar::cpu` changes only `prev_idle` and
`prev_total`; `Bar::update` changes only those two fields, so the font and
color token fields (`default_font`, `icon`, `default_color`, `red`, `green`)
are unchanged by every operation. -/
theorem C10_state_frame (bar : Bar) (f1 f2 f3 f4 f5 f6 f7 f8 f9 : Except String String)
    (line : String) (inp : UpdateInputs) :
    (bar.battery f1 f2 f3).map (fun r => r.2) = (bar.battery f1 f2 f3).map (fun _ => bar)
    ∧ (bar.brightness f4 f5).map (fun r => r.2) = (bar.brightness f4 f5).map (fun _ => bar)
    ∧ (bar.core_temperature f6 f7 f8 f9).map (fun r => r.2)
        = (bar.core_temperature f6 f7 f8 f9).map (fun _ => bar)
    ∧ (Bar.cpu bar line).map (fun r => { r.2.2 with prev_idle := bar.prev_idle, prev_total := bar.prev_total })
        = (Bar.cpu bar line).map (fun _ => bar)
    ∧ { (Bar.update bar inp).bar with prev_idle := bar.prev_idle, prev_total := bar.prev_total } = bar :=
  ⟨Bar.battery_map_frame bar f1 f2 f3, Bar.brightness_map_frame bar f4 f5,
    Bar.core_temperature_map_frame bar f6 f7 f8 f9, Bar.cpu_map_frame bar line,
    Bar.update_state_frame bar inp⟩

/-- C4: with the module section absent or any option unset, each effective
setting equals its documented default (sound: tick 50 ms, label "sou",
mute label ".so", placeholder "-", format "%l:%v"; wireless: tick 500 ms,
Signal display, max ESSID length 10, interface "wlan0", text "wle",
disconnected text ".wl", placeholder "-"), and a set option overrides only
its own setting: every effective setting is exactly its own option value
when set and its own default otherwise. -/
theorem C4_defaults (config : MainConfig) :
    (sound.InternalConfig.ofMainConfig config).tick
        = (config.sound.bind (fun c => c.tick)).getD 50
    ∧ (sound.InternalConfig.ofMainConfig config).label
        = (config.sound.bind (fun c => c.label)).getD "sou"
    ∧ (sound.InternalConfig.ofMainConfig config).mute_label
        = (config.sound.bind (fun c => c.mute_label)).getD ".so"
    ∧ (sound.Sound.with_config config).placeholder
        = (config.sound.bind (fun c => c.placeholder)).getD "-"
    ∧ (sound.Sound.with_config config).format
        = (config.sound.bind (fun c => c.format)).getD "%l:%v"
    ∧ (wireless.InternalConfig.ofMainConfig config).tick
        = (config.wireless.bind (fun c => c.tick)).getD 500
    ∧ (wireless.InternalConfig.ofMainConfig config).display
        = (config.wireless.bind (fun c => c.display)).getD .Signal
    ∧ (wireless.InternalConfig.ofMainConfig config).max_essid_len
        = (config.wireless.bind (fun c => c.max_essid_len)).getD 10
    ∧ (wireless.InternalConfig.ofMainConfig config).interface
        = (config.wireless.bind (fun c => c.interface)).getD "wlan0"
    ∧ (wireless.InternalConfig.ofMainConfig config).text
        = (config.wireless.bind (fun c => c.text)).getD "wle"
    ∧ (wireless.InternalConfig.ofMainConfig config).disconnected_text
        = (config.wireless.bind (fun c => c.disconnected_text)).getD ".wl"
    ∧ (wireless.Wireless.with_config config).placeholder
        = (config.wireless.bind (fun c => c.placeholder)).getD "-" := by
  obtain ⟨so, wi⟩ := config
  refine ⟨?_, ?_, ?_, ?_, ?_, ?_, ?_, ?_, ?_, ?_, ?_, ?_⟩
  · cases so with
    | none => rfl
    | some c => obtain ⟨i, t, p, l, m, f⟩ := c; cases t <;> rfl
  · cases so with
    | none => rfl
    | some c => obtain ⟨i, t, p, l, m, f⟩ := c; cases l <;> rfl
  · cases so with
    | none => rfl
    | some c => obtain ⟨i, t, p, l, m, f⟩ := c; cases m <;> rfl
  · cases so with
    | none => rfl
    | some c => obtain ⟨i, t, p, l, m, f⟩ := c; cases p <;> rfl
  · cases so with
    | none => rfl
    | some c => obtain ⟨i, t, p, l, m, f⟩ := c; cases f <;> rfl
  · cases wi with
    | none => rfl
    | some c => obtain ⟨t, d, me, itf, p, tx, dt⟩ := c; cases t <;> rfl
  · cases wi with
    | none => rfl
    | some c => obtain ⟨t, d, me, itf, p, tx, dt⟩ := c; cases d <;> rfl
  · cases wi with
    | none => rfl
    | some c => obtain ⟨t, d, me, itf, p, tx, dt⟩ := c; cases me <;> rfl
  · cases wi with
    | none => rfl
    | some c => obtain ⟨t, d, me, itf, p, tx, dt⟩ := c; cases itf <;> rfl
  · cases wi with
    | none => rfl
    | some c => obtain ⟨t, d, me, itf, p, tx, dt⟩ := c; cases tx <;> rfl
  · cases wi with
    | none => rfl
    | some c => obtain ⟨t, d, me, itf, p, tx, dt⟩ := c; cases dt <;> rfl
  · cases wi with
    | none => rfl
    | some c => obtain ⟨t, d, me, itf, p, tx, dt⟩ := c; cases p <;> rfl

/-- Helper: a width-`w` formatted number is at least `w` characters long. -/
theorem fmtWidth_length_ge (width n : Nat) : width ≤ (fmtWidth width n).length := by
  unfold fmtWidth padLeft
  split
  · rename_i h
    have hmk : ∀ l : List Char, (String.mk l).length = l.length := fun l => rfl
    rw [String.length_append, hmk, List.length_replicate]
    omega
  · rename_i h
    omega

/-- C3: in a `sound::run` iteration where `sink_data` returns `None`, no
message is sent, no error is surfaced and the iteration ends in the tick
sleep (retry at the next tick); where it returns `Some (volume, muted)`,
exactly one message is sent, its value the volume formatted to width at
least 3 followed by "%" and its label the mute label when muted, the
configured label otherwise. -/
theorem C3_sound_none_vs_some (config : sound.InternalConfig) (key : Char)
    (send_ok : Bool) :
    (sound.sentMsgs (sound.runIter config key none send_ok).1 = []
      ∧ (sound.runIter config key none send_ok).2 = none
      ∧ (sound.runIter config key none send_ok).1.getLast? = some (.sleep config.tick))
    ∧ ∀ volume : Nat, ∀ muted : Bool,
        sound.sentMsgs (sound.runIter config key (some (volume, muted)) send_ok).1
          = [⟨key, .optFields (some (fmtWidth 3 volume ++ "%"))
                (some (if muted then config.mute_label else config.label))⟩]
        ∧ 3 ≤ (fmtWidth 3 volume).length := by
  refine ⟨⟨rfl, rfl, rfl⟩, ?_⟩
  intro volume muted
  refine ⟨?_, fmtWidth_length_ge 3 volume⟩
  cases send_ok <;> rfl

/-- C5: in every `sound::run` iteration the lock is taken first, exactly
once, released exactly once, exactly one `sink_data` query happens and it
happens while the lock is held, no sleep happens while the lock is held, and
the release precedes any sleep. -/
theorem C5_lock_discipline (config : sound.InternalConfig) (key : Char)
    (sink_data : Option (Nat × Bool)) (send_ok : Bool) :
    (sound.runIter config key sink_data send_ok).1.head? = some .lockAcquire
    ∧ (sound.runIter config key sink_data send_ok).1.count .lockAcquire = 1
    ∧ (sound.runIter config key sink_data send_ok).1.count .lockRelease = 1
    ∧ (sound.runIter config key sink_data send_ok).1.countP sound.isQueryEv = 1
    ∧ ((sound.runIter config key sink_data send_ok).1.takeWhile
        (fun e => e != sound.Event.lockRelease)).countP sound.isQueryEv = 1
    ∧ ((sound.runIter config key sink_data send_ok).1.takeWhile
        (fun e => e != sound.Event.lockRelease)).countP sound.isSleepEv = 0
    ∧ ((sound.runIter config key sink_data send_ok).1.takeWhile
        (fun e => !(sound.isSleepEv e))).count sound.Event.lockRelease = 1 := by
  obtain (_ | ⟨v, m⟩) := sink_data <;> cases send_ok <;>
    exact ⟨rfl, rfl, rfl, rfl, rfl, rfl, rfl⟩

/-- C2 (amended): every message `sound::run` sends carries the module key, a
`Some` value and a `Some` label; every message `wireless::run` sends carries
the module key and a bare value string, with no `Option` wrapper and no
label field. -/
theorem C2_message_shapes (scfg : sound.InternalConfig) (wcfg : wireless.InternalConfig)
    (key : Char) (sink_data : Option (Nat × Bool)) (state : wireless.WirelessState)
    (so1 so2 : Bool) :
    (sound.sentMsgs (sound.runIter scfg key sink_data so1).1).all (soundShapeOk key) = true
    ∧ (wireless.sentMsgs (wireless.runIter wcfg key state so2).1).all
        (wirelessShapeOk key) = true := by
  constructor
  · obtain (_ | ⟨v, m⟩) := sink_data <;> cases so1 <;>
      simp [sound.runIter, sound.sentMsgs, soundShapeOk]
  · cases hs : wireless.sample wcfg state with
    | error p => simp [wireless.runIter, hs, wireless.sentMsgs]
    | ok r =>
      obtain ⟨text, essid, signal⟩ := r
      cases hd : wcfg.display <;> cases signal <;> cases so2 <;>
        simp [wireless.runIter, hs, hd, wireless.sentMsgs, wirelessShapeOk]

/-- C6 (amended): in every iteration that completes normally (no truncation
panic, send succeeds), `wireless::run` sends exactly one message and then
sleeps for its tick — connected or not — and `sound::run` sends exactly one
message then sleeps when `sink_data` returns `Some`, but zero messages when
it returns `None`. -/
theorem C6_one_message_per_cycle (scfg : sound.InternalConfig)
    (wcfg : wireless.InternalConfig) (key : Char) (state : wireless.WirelessState)
    (volume : Nat) (muted : Bool)
    (h : (wireless.runIter wcfg key state true).2 = none) :
    (wireless.sentMsgs (wireless.runIter wcfg key state true).1).length = 1
    ∧ (wireless.runIter wcfg key state true).1.getLast? = some (.sleep wcfg.tick)
    ∧ (sound.sentMsgs (sound.runIter scfg key (some (volume, muted)) true).1).length = 1
    ∧ (sound.runIter scfg key (some (volume, muted)) true).1.getLast?
        = some (.sleep scfg.tick)
    ∧ sound.sentMsgs (sound.runIter scfg key none true).1 = [] := by
  refine ⟨?_, ?_, rfl, rfl, rfl⟩ <;>
  · cases hs : wireless.sample wcfg state with
    | error p => rw [wireless.runIter, hs] at h; exact absurd h (by simp)
    | ok r =>
      obtain ⟨text, essid, signal⟩ := r
      simp [wireless.runIter, hs, wireless.sentMsgs]

/-- Witness for `C6_one_message_per_cycle` at the default configurations,
disconnected state, volume 42, unmuted. -/
theorem C6_one_message_per_cycle_witness :
    (wireless.sentMsgs (wireless.runIter wireless.defaultInternalConfig 'x'
        .Disconnected true).1).length = 1
    ∧ (wireless.runIter wireless.defaultInternalConfig 'x' .Disconnected true).1.getLast?
        = some (.sleep wireless.defaultInternalConfig.tick)
    ∧ (sound.sentMsgs (sound.runIter sound.defaultInternalConfig 'x'
        (some (42, false)) true).1).length = 1
    ∧ (sound.runIter sound.defaultInternalConfig 'x' (some (42, false)) true).1.getLast?
        = some (.sleep sound.defaultInternalConfig.tick)
    ∧ sound.sentMsgs (sound.runIter sound.defaultInternalConfig 'x' none true).1 = [] :=
  C6_one_message_per_cycle sound.defaultInternalConfig wireless.defaultInternalConfig 'x'
    .Disconnected 42 false rfl

/-- C7: neither `sound::run` nor `wireless::run` ever returns `Ok(())`:
after any number of iterations, under any stream of query results and send
outcomes, the loop is either still running or has ended on a failure. -/
theorem C7_run_never_ok (scfg : sound.InternalConfig) (wcfg : wireless.InternalConfig)
    (key1 key2 : Char) (sink : Nat → Option (Nat × Bool))
    (states : Nat → wireless.WirelessState) (so1 so2 : Nat → Bool) (n m : Nat) :
    returnedOk (sound.runSteps scfg key1 sink so1 n) = false
    ∧ returnedOk (wireless.runSteps wcfg key2 states so2 m) = false := by
  constructor
  · induction n with
    | zero => rfl
    | succ k ih =>
      rw [sound.runSteps]
      cases hr : sound.runSteps scfg key1 sink so1 k with
      | none =>
        cases ho : (sound.runIter scfg key1 (sink k) (so1 k)).2 with
        | none => rfl
        | some f => rfl
      | some r =>
        rw [hr] at ih
        exact ih
  · induction m with
    | zero => rfl
    | succ k ih =>
      rw [wireless.runSteps]
      cases hr : wireless.runSteps wcfg key2 states so2 k with
      | none =>
        cases ho : (wireless.runIter wcfg key2 (states k) (so2 k)).2 with
        | none => rfl
        | some f => rfl
      | some r =>
        rw [hr] at ih
        exact ih

/-- Helper: on a string of single-byte characters, `takeBytes` takes exactly
`n` characters whenever `n` does not exceed the length. -/
theorem takeBytes_ascii (l : List Char) (n : Nat) (h1 : ∀ c ∈ l, utf8Len c = 1)
    (h2 : n ≤ l.length) : takeBytes l n = .ok (l.take n) := by
  induction l generalizing n with
  | nil =>
    cases n with
    | zero => rfl
    | succ k => exact absurd h2 (by simp)
  | cons c cs ih =>
    cases n with
    | zero => rfl
    | succ k =>
      have hc : utf8Len c = 1 := h1 c (List.mem_cons_self c cs)
      have hk : k ≤ cs.length := by
        have := h2
        simp only [List.length_cons] at this
        omega
      rw [takeBytes, hc, if_pos (by omega), Nat.add_sub_cancel,
        ih k (fun x hx => h1 x (List.mem_cons_of_mem c hx)) hk]
      rfl

/-- C8: the ESSID truncation in `wireless::run` slices by byte index — for
every ESSID of single-byte characters longer than `max_essid_len`, the slice
succeeds and keeps exactly `max_essid_len` characters, but an ESSID
containing multi-byte characters can put the index off a character boundary,
where the slice panics instead of producing a truncated string. -/
theorem C8_essid_truncation (max_essid_len : Nat) (val : String)
    (h1 : ∀ c ∈ val.data, utf8Len c = 1) (h2 : max_essid_len < val.data.length) :
    (∃ t : String, wireless.truncateEssid max_essid_len val = .ok t
        ∧ t.data.length = max_essid_len)
    ∧ wireless.truncateEssid 10 "aàààààààààà" = .error .notCharBoundary := by
  constructor
  · refine ⟨String.mk (val.data.take max_essid_len), ?_, ?_⟩
    · unfold wireless.truncateEssid sliceToByte
      rw [if_pos h2, takeBytes_ascii val.data max_essid_len h1 (le_of_lt h2)]
    · show (val.data.take max_essid_len).length = max_essid_len
      rw [List.length_take]
      omega
  · rfl

/-- Witness for `C8_essid_truncation`: a 12-character ASCII ESSID against the
default maximum length 10. -/
theorem C8_essid_truncation_witness :
    (∃ t : String, wireless.truncateEssid 10 "abcdefghijkl" = .ok t
        ∧ t.data.length = 10)
    ∧ wireless.truncateEssid 10 "aàààààààààà" = .error .notCharBoundary :=
  C8_essid_truncation 10 "abcdefghijkl" (by decide) (by decide)
